import Mathlib

/-!
Verification of the bird-detection pipeline in src/python-code/main.py.

The pipeline's pure decision logic is embedded shallowly: the image-level
collaborators (OpenCV primitives, the YOLO model, numpy slicing, the clock,
S3 and the local filesystem) are parameters, and the control flow of
detect_motion, detect_bird, upload_to_s3 and the run loop body is
transcribed function by function.
-/

namespace Birds

/-! Configuration constants from the CONFIG section of main.py. -/

def BIRD_CONFIDENCE : ℚ := 15 / 100

def MIN_CONTOUR_AREA : ℚ := 800

def MAX_CONTOUR_AREA : ℚ := 15000

def MOTION_PERSISTENCE : Nat := 2

def SAVE_LOCAL_BACKUP : Bool := true

/-- A contour as consumed by the loop in detect_motion (lines 136-152):
cv2.contourArea gives a nonnegative float, cv2.boundingRect gives
nonnegative integers (x, y, w, h). -/
structure Contour where
  area : ℚ
  x : Nat
  y : Nat
  w : Nat
  h : Nat
deriving DecidableEq, Repr

/-- A padded motion bounding box (x1, y1, x2, y2) as appended at line 152. -/
structure MotionRegion where
  x1 : Nat
  y1 : Nat
  x2 : Nat
  y2 : Nat
deriving DecidableEq, Repr

/-- Lines 145-151 of detect_motion: bounding box of an accepted contour,
padded by half its larger dimension and clamped to the frame.  On Nat,
c.x - padding is exactly Python's max(0, x - padding). -/
def padClamp (width height : Nat) (c : Contour) : MotionRegion :=
  let padding := max c.w c.h / 2
  ⟨c.x - padding, c.y - padding,
   min width (c.x + c.w + padding), min height (c.y + c.h + padding)⟩

/-- The area band test of line 140: MIN_CONTOUR_AREA < area < MAX_CONTOUR_AREA. -/
def acceptContour (c : Contour) : Bool :=
  decide (MIN_CONTOUR_AREA < c.area ∧ c.area < MAX_CONTOUR_AREA)

/-- One iteration of the contour loop of detect_motion (lines 136-152),
carrying (has_motion, motion_areas, bounding_boxes). -/
def motionStep (width height : Nat)
    (st : Bool × List ℚ × List MotionRegion) (c : Contour) :
    Bool × List ℚ × List MotionRegion :=
  if MIN_CONTOUR_AREA < c.area ∧ c.area < MAX_CONTOUR_AREA then
    (true, st.2.1 ++ [c.area], st.2.2 ++ [padClamp width height c])
  else
    st

/-- detect_motion, lines 106-154, from the point where the contours have
been extracted: the grayscale / blur / absdiff / threshold / dilate /
findContours prefix is pixel-level OpenCV work, so the contour list it
yields on the two frames is taken as the input here; the decision logic
(filtering, padding, clamping, has_motion) is transcribed exactly. -/
def detect_motion (width height : Nat) (contours : List Contour) :
    Bool × List ℚ × List MotionRegion :=
  contours.foldl (motionStep width height) (false, [], [])

/-- One YOLO detection box as read in upload_to_s3 (lines 224-226):
map(int, box.xyxy[0]) and float(box.conf[0]). -/
structure Det where
  x1 : Int
  y1 : Int
  x2 : Int
  y2 : Int
  conf : ℚ
deriving DecidableEq, Repr

def MIN_BOX_AREA : Int := 1500

def BOX_PADDING : Int := 40

/-- Lines 229-231: width * height of the un-padded detection box. -/
def boxArea (b : Det) : Int := (b.x2 - b.x1) * (b.y2 - b.y1)

/-- The filtering loop of upload_to_s3 (lines 223-237): a box is appended
to valid_boxes unless box_area < MIN_BOX_AREA (the continue at line 235).
The display padding of lines 240-243 happens after the append and never
feeds back into this test. -/
def valid_boxes (result : List Det) : List Det :=
  result.filter fun box => !decide (boxArea box < MIN_BOX_AREA)

/-- Line 251: num_birds = len(valid_boxes). -/
def num_birds (result : List Det) : Nat := (valid_boxes result).length

/-- Line 252: confidences of the valid boxes only. -/
def confidences (result : List Det) : List ℚ :=
  (valid_boxes result).map fun box => box.conf

/-- Line 253: avg_conf = sum(confidences) / len(confidences) if confidences
else 0. -/
def avg_conf (result : List Det) : ℚ :=
  if confidences result ≠ [] then
    (confidences result).sum / ((confidences result).length : ℚ)
  else 0

/-- Lines 240-243: cosmetic display padding of a valid box, clamped to the
frame, used only for drawing the rectangle and label. -/
def displayBox (width height : Nat) (b : Det) : Int × Int × Int × Int :=
  (max 0 (b.x1 - BOX_PADDING), max 0 (b.y1 - BOX_PADDING),
   min (width : Int) (b.x2 + BOX_PADDING), min (height : Int) (b.y2 + BOX_PADDING))

/-- Lines 331-333 of run: motion_history.append(has_motion) followed by
pop(0) when the length exceeds 3 (pop(0) removes the first, i.e. oldest,
entry). -/
def pushHistory (motion_history : List Bool) (has_motion : Bool) : List Bool :=
  let h := motion_history ++ [has_motion]
  if h.length > 3 then h.drop 1 else h

/-- Line 337 of run: motion_history.count(True) >= MOTION_PERSISTENCE. -/
def persistent_motion (motion_history : List Bool) : Bool :=
  decide (MOTION_PERSISTENCE ≤ motion_history.count true)

/-- The collaborators detect_bird invokes, over an abstract image type:
model is self.model(img, classes=[14], conf, verbose=False) read as its
box list; enhance is the LAB plus CLAHE contrast enhancement of lines
168-173; crop is the numpy slice enhanced[y1:y2, x1:x2] of line 183;
rows and cols are numpy .shape[0] and .shape[1]. -/
structure DetectorEnv (Img : Type) where
  model : Img → ℚ → List Det
  enhance : Img → Img
  crop : Img → MotionRegion → Img
  rows : Img → Nat
  cols : Img → Nat

/-- The crop loop of detect_bird (lines 181-194), also recording every
model invocation it makes as (image, threshold) pairs.  It carries the
step-2 result enhanced_results and the step-1 result results, since on a
crop hit line 194 returns enhanced_results and falling off the loop
reaches line 196 which returns results. -/
def cropLoopT {Img : Type} (env : DetectorEnv Img) (enhanced : Img)
    (enhanced_results results : List Det) :
    List MotionRegion → List Det × List (Img × ℚ)
  | [] => (results, [])
  | bbox :: rest =>
    let cropped := env.crop enhanced bbox
    if env.rows cropped < 50 ∨ env.cols cropped < 50 then
      cropLoopT env enhanced enhanced_results results rest
    else
      let crop_results := env.model cropped (BIRD_CONFIDENCE * (6 / 10))
      if 0 < crop_results.length then
        (enhanced_results, [(cropped, BIRD_CONFIDENCE * (6 / 10))])
      else
        let r := cropLoopT env enhanced enhanced_results results rest
        (r.1, (cropped, BIRD_CONFIDENCE * (6 / 10)) :: r.2)

/-- detect_bird (lines 156-196) together with the trace of model
invocations it performs.  Python's None default for bounding_boxes is
rendered as the empty list, so the truthiness test at line 166 becomes
bounding_boxes ≠ []. -/
def detect_birdT {Img : Type} (env : DetectorEnv Img) (frame : Img)
    (bounding_boxes : List MotionRegion) : List Det × List (Img × ℚ) :=
  let results := env.model frame BIRD_CONFIDENCE
  if results.length = 0 ∧ bounding_boxes ≠ [] then
    let enhanced := env.enhance frame
    let enhanced_results := env.model enhanced BIRD_CONFIDENCE
    if 0 < enhanced_results.length then
      (enhanced_results, [(frame, BIRD_CONFIDENCE), (enhanced, BIRD_CONFIDENCE)])
    else
      let r := cropLoopT env enhanced enhanced_results results bounding_boxes
      (r.1, (frame, BIRD_CONFIDENCE) :: (enhanced, BIRD_CONFIDENCE) :: r.2)
  else
    (results, [(frame, BIRD_CONFIDENCE)])

/-- The value detect_bird returns (the trace dropped). -/
def detect_bird {Img : Type} (env : DetectorEnv Img) (frame : Img)
    (bounding_boxes : List MotionRegion) : List Det :=
  (detect_birdT env frame bounding_boxes).1

/-- A crop that the loop of lines 181-194 neither skips (both dimensions
at least 50) nor finds empty at the relaxed threshold. -/
def cropHit {Img : Type} (env : DetectorEnv Img) (enhanced : Img)
    (bbox : MotionRegion) : Bool :=
  decide (¬(env.rows (env.crop enhanced bbox) < 50 ∨
            env.cols (env.crop enhanced bbox) < 50) ∧
          0 < (env.model (env.crop enhanced bbox) (BIRD_CONFIDENCE * (6 / 10))).length)

/-- Some motion region yields a crop hit. -/
def anyCropHit {Img : Type} (env : DetectorEnv Img) (enhanced : Img)
    (bbs : List MotionRegion) : Bool :=
  bbs.any (cropHit env enhanced)

/-- A clock reading as produced by datetime.now(). -/
structure PyTime where
  year : Nat
  month : Nat
  day : Nat
  hour : Nat
  minute : Nat
  second : Nat
deriving DecidableEq, Repr

/-- Zero-pad a natural to two digits, as strftime %m, %d, %H, %M, %S do. -/
def pad2 (n : Nat) : String :=
  if n < 10 then "0" ++ toString n else toString n

/-- Zero-pad a natural to four digits, as strftime %Y does. -/
def pad4 (n : Nat) : String :=
  if n < 10 then "000" ++ toString n
  else if n < 100 then "00" ++ toString n
  else if n < 1000 then "0" ++ toString n
  else toString n

/-- Line 216: now.strftime of the MM-DD-YYYY date folder. -/
def strftime_date (t : PyTime) : String :=
  pad2 t.month ++ "-" ++ pad2 t.day ++ "-" ++ pad4 t.year

/-- Line 215: now.strftime of the YYYYMMDD_HHMMSS timestamp. -/
def strftime_stamp (t : PyTime) : String :=
  pad4 t.year ++ pad2 t.month ++ pad2 t.day ++ "_" ++
    pad2 t.hour ++ pad2 t.minute ++ pad2 t.second

/-- Python's .2f formatting for the nonnegative confidences that occur
here: round to hundredths and print with two decimals. -/
def format2f (q : ℚ) : String :=
  let c : Int := round (q * 100)
  toString (c / 100) ++ "." ++ pad2 (c % 100).toNat

/-- Line 256: the artifact filename built from the now() read at line 214
and the validator outputs. -/
def bird_filename (now : PyTime) (result : List Det) : String :=
  "bird_" ++ strftime_stamp now ++ "_count_" ++ toString (num_birds result) ++
    "_conf_" ++ format2f (avg_conf result) ++ ".jpg"

/-- What upload_to_s3 did on one call: its returned tuple fields together
with how it treated its two storage sinks. -/
structure UploadOutcome where
  s3_key : Option String
  count : Nat
  avg : ℚ
  local_path : Option String
  uploadAttempts : Nat
  uploadSucceeded : Bool
  backupAttempted : Bool
  raised : Bool
deriving DecidableEq, Repr

/-- upload_to_s3 (lines 209-288).  The clock read of line 214 is the
parameter now; the annotation drawing only touches the image copy.  The
s3put parameter is the outcome the S3 collaborator would produce on this
call: matching on it and continuing in both branches is the shallow
embedding of the try/except of lines 270-279, whose except arm only
prints — no exception escapes, so raised is false on every path.
cv2.imwrite at line 285 signals failure through its ignored Bool return,
modelled by imwriteOk, which the code never inspects. -/
def upload_to_s3 (now : PyTime) (result : List Det)
    (s3put : Except String Unit) (imwriteOk : Bool) : UploadOutcome :=
  let filename := bird_filename now result
  if num_birds result = 0 then
    ⟨none, 0, 0, none, 0, false, false, false⟩
  else
    let s3_key := strftime_date now ++ "/" ++ filename
    let ok := match s3put with
      | Except.ok _ => true
      | Except.error _ => false
    let local_path := if SAVE_LOCAL_BACKUP then some filename else none
    let _ := imwriteOk
    ⟨some s3_key, num_birds result, avg_conf result, local_path,
     1, ok, SAVE_LOCAL_BACKUP, false⟩

/-- The observable outcome of one tick of the run loop. -/
structure TickResult where
  motion_history : List Bool
  invoked : Bool
  result : List Det
  upload : Option UploadOutcome
  sighting : Option (Nat × ℚ)

/-- The body of the run loop for one tick with a previous frame present
(lines 330-365): push the tick's has_motion into the history, gate on
persistent_motion and has_motion, run detect_bird on the frame with the
motion regions, and hand the result to upload_to_s3 when it has at least
one box; a Sighting (count, avg_conf) exists exactly when the upload call
reports num_birds > 0 (lines 357-363). -/
def runTick {Img : Type} (env : DetectorEnv Img) (frame : Img)
    (has_motion : Bool) (bboxes : List MotionRegion)
    (motion_history : List Bool) (uploadTime : PyTime)
    (s3put : Except String Unit) (imwriteOk : Bool) : TickResult :=
  let history := pushHistory motion_history has_motion
  if persistent_motion history && has_motion then
    let result := detect_bird env frame bboxes
    if 0 < result.length then
      let u := upload_to_s3 uploadTime result s3put imwriteOk
      ⟨history, true, result, some u,
       if 0 < u.count then some (u.count, u.avg) else none⟩
    else
      ⟨history, true, result, none, none⟩
  else
    ⟨history, false, [], none, none⟩

/-! Helper lemmas. -/

/-- The validator's keep-test !(area < MIN) is the test MIN ≤ area. -/
lemma valid_boxes_eq_filter (result : List Det) :
    valid_boxes result = result.filter fun box => decide (MIN_BOX_AREA ≤ boxArea box) := by
  unfold valid_boxes
  refine List.filter_congr ?_
  intro b _
  rw [← decide_not]
  exact decide_eq_decide.mpr not_lt

/-- avg_conf in terms of the valid box list. -/
lemma avg_conf_char (result : List Det) :
    avg_conf result =
      (if valid_boxes result = [] then 0
       else ((valid_boxes result).map (fun b => b.conf)).sum
              / ((valid_boxes result).length : ℚ)) := by
  by_cases h : valid_boxes result = [] <;>
    simp [avg_conf, confidences, h]

/-- Pushing onto a history of at most 3 entries keeps at most 3 entries. -/
lemma pushHistory_length_le (h : List Bool) (b : Bool) (hh : h.length ≤ 3) :
    (pushHistory h b).length ≤ 3 := by
  have hlen : (h ++ [b]).length = h.length + 1 := by simp
  simp only [pushHistory]
  split
  · rw [List.length_drop]
    omega
  · omega

/-- Running the history from any bounded start keeps it bounded. -/
lemma foldl_pushHistory_le (ticks : List Bool) :
    ∀ h : List Bool, h.length ≤ 3 → (List.foldl pushHistory h ticks).length ≤ 3 := by
  induction ticks with
  | nil => intro h hh; simpa using hh
  | cons t ts ih => intro h hh; exact ih _ (pushHistory_length_le h t hh)

/-- The accumulator form of the detect_motion contour loop. -/
lemma detect_motion_fold (width height : Nat) (cs : List Contour) :
    ∀ (b : Bool) (as : List ℚ) (rs : List MotionRegion),
      List.foldl (motionStep width height) (b, as, rs) cs =
        (b || cs.any acceptContour,
         as ++ (cs.filter acceptContour).map (fun c => c.area),
         rs ++ (cs.filter acceptContour).map (padClamp width height)) := by
  induction cs with
  | nil => intro b as rs; simp
  | cons c cs ih =>
    intro b as rs
    by_cases hc : MIN_CONTOUR_AREA < c.area ∧ c.area < MAX_CONTOUR_AREA
    · have ha : acceptContour c = true := by simp [acceptContour, hc]
      simp [motionStep, hc, ha, ih, List.filter_cons]
    · have ha : acceptContour c = false := by simp [acceptContour, hc]
      simp [motionStep, hc, ha, ih, List.filter_cons]

/-- The crop loop returns the step-2 result when some crop hits and the
step-1 result otherwise. -/
lemma cropLoopT_fst {Img : Type} (env : DetectorEnv Img) (enhanced : Img)
    (er fr : List Det) :
    ∀ bbs : List MotionRegion,
      (cropLoopT env enhanced er fr bbs).1 =
        if anyCropHit env enhanced bbs then er else fr := by
  intro bbs
  induction bbs with
  | nil => simp [cropLoopT, anyCropHit]
  | cons bbox rest ih =>
    by_cases hskip : env.rows (env.crop enhanced bbox) < 50 ∨
        env.cols (env.crop enhanced bbox) < 50
    · have hhit : cropHit env enhanced bbox = false := by
        simp [cropHit, hskip]
      simp [cropLoopT, hskip, anyCropHit, List.any_cons, hhit] at ih ⊢
      exact ih
    · by_cases hpos : 0 < (env.model (env.crop enhanced bbox)
          (BIRD_CONFIDENCE * (6 / 10))).length
      · have hhit : cropHit env enhanced bbox = true := by
          simp [cropHit, hskip, hpos]
        simp [cropLoopT, hskip, hpos, anyCropHit, List.any_cons, hhit]
      · have hhit : cropHit env enhanced bbox = false := by
          simp [cropHit, hskip, hpos]
        simp [cropLoopT, hskip, hpos, anyCropHit, List.any_cons, hhit] at ih ⊢
        exact ih

/-- A concrete detector environment for witnesses: images are natural
number tags, the model reports one box exactly on image 2, enhancement
maps everything to 1, every crop is image 2, and crops are 100 by 100. -/
def envA : DetectorEnv Nat :=
  ⟨fun i _ => if i = 2 then [⟨0, 0, 100, 100, 1⟩] else [],
   fun _ => 1, fun _ _ => 2, fun _ => 100, fun _ => 100⟩

/-! Claim theorems. -/

/-- C5: for any frame shape and extracted contour list, detect_motion
keeps exactly the contours whose area lies strictly inside the
(MIN_CONTOUR_AREA, MAX_CONTOUR_AREA) band, one region per kept contour in
order; has_motion holds iff some contour is in the band; and each kept
region is the contour's bounding box padded by half its larger dimension
with coordinates clamped into [0, width] and [0, height] (for a contour
that lies inside the frame, as cv2.boundingRect guarantees). -/
theorem motion_detector_spec (width height : Nat) (contours : List Contour) :
    detect_motion width height contours =
      (contours.any acceptContour,
       (contours.filter acceptContour).map (fun c => c.area),
       (contours.filter acceptContour).map (padClamp width height))
    ∧ ((detect_motion width height contours).1 = true ↔
        ∃ c ∈ contours, MIN_CONTOUR_AREA < c.area ∧ c.area < MAX_CONTOUR_AREA)
    ∧ (∀ c : Contour, c.x + c.w ≤ width → c.y + c.h ≤ height →
        padClamp width height c =
          ⟨c.x - max c.w c.h / 2, c.y - max c.w c.h / 2,
           min width (c.x + c.w + max c.w c.h / 2),
           min height (c.y + c.h + max c.w c.h / 2)⟩
        ∧ (padClamp width height c).x1 ≤ width
        ∧ (padClamp width height c).x2 ≤ width
        ∧ (padClamp width height c).y1 ≤ height
        ∧ (padClamp width height c).y2 ≤ height) := by
  have hmain : detect_motion width height contours =
      (contours.any acceptContour,
       (contours.filter acceptContour).map (fun c => c.area),
       (contours.filter acceptContour).map (padClamp width height)) := by
    unfold detect_motion
    rw [detect_motion_fold]
    simp
  refine ⟨hmain, ?_, ?_⟩
  · rw [hmain]
    simp [List.any_eq_true, acceptContour]
  · intro c hx hy
    refine ⟨rfl, ?_, min_le_left _ _, ?_, min_le_left _ _⟩
    · exact le_trans (Nat.sub_le _ _) (le_trans (Nat.le_add_right _ _) hx)
    · exact le_trans (Nat.sub_le _ _) (le_trans (Nat.le_add_right _ _) hy)

/-- C5 witness: the spec applied to a concrete in-frame contour of area
900 with bounding box (100, 100, 40, 20) on a 1920 by 1080 frame. -/
theorem motion_detector_spec_witness :
    padClamp 1920 1080 ⟨900, 100, 100, 40, 20⟩ =
        ⟨100 - max 40 20 / 2, 100 - max 40 20 / 2,
         min 1920 (100 + 40 + max 40 20 / 2), min 1080 (100 + 20 + max 40 20 / 2)⟩
    ∧ (padClamp 1920 1080 ⟨900, 100, 100, 40, 20⟩).x1 ≤ 1920
    ∧ (padClamp 1920 1080 ⟨900, 100, 100, 40, 20⟩).x2 ≤ 1920
    ∧ (padClamp 1920 1080 ⟨900, 100, 100, 40, 20⟩).y1 ≤ 1080
    ∧ (padClamp 1920 1080 ⟨900, 100, 100, 40, 20⟩).y2 ≤ 1080 :=
  (motion_detector_spec 1920 1080 []).2.2 ⟨900, 100, 100, 40, 20⟩
    (by decide) (by decide)

/-- C1: with a non-empty motion-region list the cascade short-circuits in
order: a non-empty step-1 full-frame result is returned at once and no
further model call happens (the trace is the single step-1 invocation); a
non-empty step-2 enhanced result is returned when step 1 was empty; a
crop hit in step 3 (crops taken in region order, those with a dimension
under 50 skipped, detection at BIRD_CONFIDENCE times 0.6) makes
detect_bird return the step-2 enhanced full-frame result; and with no
successful step the step-1 full-frame result is returned. -/
theorem cascading_classifier_spec {Img : Type} (env : DetectorEnv Img) (frame : Img)
    (bounding_boxes : List MotionRegion) (hne : bounding_boxes ≠ []) :
    (env.model frame BIRD_CONFIDENCE ≠ [] →
      detect_bird env frame bounding_boxes = env.model frame BIRD_CONFIDENCE
      ∧ (detect_birdT env frame bounding_boxes).2 = [(frame, BIRD_CONFIDENCE)])
    ∧ (env.model frame BIRD_CONFIDENCE = [] →
        env.model (env.enhance frame) BIRD_CONFIDENCE ≠ [] →
        detect_bird env frame bounding_boxes
          = env.model (env.enhance frame) BIRD_CONFIDENCE)
    ∧ (env.model frame BIRD_CONFIDENCE = [] →
        env.model (env.enhance frame) BIRD_CONFIDENCE = [] →
        anyCropHit env (env.enhance frame) bounding_boxes = true →
        detect_bird env frame bounding_boxes
          = env.model (env.enhance frame) BIRD_CONFIDENCE)
    ∧ (env.model frame BIRD_CONFIDENCE = [] →
        env.model (env.enhance frame) BIRD_CONFIDENCE = [] →
        anyCropHit env (env.enhance frame) bounding_boxes = false →
        detect_bird env frame bounding_boxes = env.model frame BIRD_CONFIDENCE) := by
  refine ⟨?_, ?_, ?_, ?_⟩
  · intro h1
    have hc : ¬(env.model frame BIRD_CONFIDENCE = [] ∧ ¬bounding_boxes = []) :=
      fun hcon => h1 hcon.1
    exact ⟨by simp [detect_bird, detect_birdT, hc], by simp [detect_birdT, hc]⟩
  · intro h1 h2
    have hp : 0 < (env.model (env.enhance frame) BIRD_CONFIDENCE).length :=
      List.length_pos.mpr h2
    simp [detect_bird, detect_birdT, h1, hne, hp]
  · intro h1 h2 hhit
    have hp : ¬ 0 < (env.model (env.enhance frame) BIRD_CONFIDENCE).length := by
      simp [h2]
    simp [detect_bird, detect_birdT, h1, hne, hp, cropLoopT_fst, hhit, h2]
  · intro h1 h2 hhit
    have hp : ¬ 0 < (env.model (env.enhance frame) BIRD_CONFIDENCE).length := by
      simp [h2]
    simp [detect_bird, detect_birdT, h1, hne, hp, cropLoopT_fst, hhit]

/-- C1 witness: on image 2 the step-1 model call already reports a box, so
the cascade returns it and the trace is that single invocation. -/
theorem cascading_classifier_spec_witness :
    detect_bird envA 2 [⟨0, 0, 0, 0⟩] = envA.model 2 BIRD_CONFIDENCE
    ∧ (detect_birdT envA 2 [⟨0, 0, 0, 0⟩]).2 = [(2, BIRD_CONFIDENCE)] :=
  (cascading_classifier_spec envA 2 [⟨0, 0, 0, 0⟩] (by simp)).1 (by simp [envA])

/-- C2: a step-3 model call only happens after step 2 came back empty (any
relaxed-threshold invocation in the trace forces an empty step-2 result);
hence a crop hit makes detect_bird return the empty step-2 result, and on
such a tick the run loop, seeing zero boxes, emits no Sighting. -/
theorem step3_never_causes_sighting {Img : Type} (env : DetectorEnv Img) (frame : Img)
    (bboxes : List MotionRegion)
    (h1 : env.model frame BIRD_CONFIDENCE = [])
    (hb : bboxes ≠ []) :
    ((detect_birdT env frame bboxes).2.any
        (fun call => decide (call.2 = BIRD_CONFIDENCE * (6 / 10))) = true →
      env.model (env.enhance frame) BIRD_CONFIDENCE = [])
    ∧ (env.model (env.enhance frame) BIRD_CONFIDENCE = [] →
        anyCropHit env (env.enhance frame) bboxes = true →
        detect_bird env frame bboxes = []
        ∧ ∀ (motion_history : List Bool) (has_motion : Bool) (uploadTime : PyTime)
            (s3put : Except String Unit) (imwriteOk : Bool),
            (runTick env frame has_motion bboxes motion_history uploadTime
              s3put imwriteOk).sighting = none) := by
  constructor
  · intro hany
    by_contra h2
    have hp : 0 < (env.model (env.enhance frame) BIRD_CONFIDENCE).length :=
      List.length_pos.mpr h2
    have htrace : (detect_birdT env frame bboxes).2 =
        [(frame, BIRD_CONFIDENCE), (env.enhance frame, BIRD_CONFIDENCE)] := by
      simp [detect_birdT, h1, hb, hp]
    have hnoteq : ¬(BIRD_CONFIDENCE = BIRD_CONFIDENCE * (6 / 10)) := by
      norm_num [BIRD_CONFIDENCE]
    rw [htrace] at hany
    simp [hnoteq] at hany
  · intro h2 hhit
    have hp : ¬ 0 < (env.model (env.enhance frame) BIRD_CONFIDENCE).length := by
      simp [h2]
    have hres : detect_bird env frame bboxes = [] := by
      simp [detect_bird, detect_birdT, h1, hb, hp, cropLoopT_fst, hhit, h2]
    refine ⟨hres, ?_⟩
    intro motion_history has_motion uploadTime s3put imwriteOk
    simp only [runTick]
    cases hgb : persistent_motion (pushHistory motion_history has_motion) && has_motion <;>
      simp [hres]

/-- C2 witness: in the concrete environment, image 0 and its enhancement 1
yield no detection while the crop image 2 does, so detect_bird returns the
empty list and a tick built on it has no Sighting. -/
theorem step3_never_causes_sighting_witness :
    detect_bird envA 0 [⟨0, 0, 0, 0⟩] = []
    ∧ (runTick envA 0 true [⟨0, 0, 0, 0⟩] [true, true] ⟨2026, 1, 1, 12, 0, 0⟩
        (Except.ok ()) true).sighting = none := by
  have h := (step3_never_causes_sighting envA 0 [⟨0, 0, 0, 0⟩]
      (by simp [envA]) (by simp)).2 (by simp [envA])
      (by simp [anyCropHit, cropHit, envA])
  exact ⟨h.1, h.2 [true, true] true ⟨2026, 1, 1, 12, 0, 0⟩ (Except.ok ()) true⟩

/-- C7 counterexample: the partition key is taken from the datetime.now()
read inside upload_to_s3, not from any capture timestamp (none is ever
recorded).  A frame captured at 2025-12-31 23:59:59 whose upload call runs
at 2026-01-01 00:00:01 is stored under 01-01-2026, not under the capture
date folder 12-31-2025 the claim requires. -/
theorem upload_key_capture_date_cex :
    (upload_to_s3 ⟨2026, 1, 1, 0, 0, 1⟩ [⟨0, 0, 100, 100, 1/2⟩]
        (Except.ok ()) true).s3_key
      = some "01-01-2026/bird_20260101_000001_count_1_conf_0.50.jpg"
    ∧ strftime_date ⟨2025, 12, 31, 23, 59, 59⟩ = "12-31-2025"
    ∧ "01-01-2026/bird_20260101_000001_count_1_conf_0.50.jpg"
        ≠ "12-31-2025" ++ "/bird_20260101_000001_count_1_conf_0.50.jpg" := by
  have hn : num_birds [⟨0, 0, 100, 100, (1 : ℚ)/2⟩] = 1 := rfl
  have hconf : confidences [⟨0, 0, 100, 100, (1 : ℚ)/2⟩] = [(1 : ℚ)/2] := rfl
  have havg : avg_conf [⟨0, 0, 100, 100, (1 : ℚ)/2⟩] = 1/2 := by
    unfold avg_conf
    rw [hconf]
    norm_num
  have hfmt : format2f ((1 : ℚ)/2) = "0.50" := by
    have h100 : ((1 : ℚ)/2) * 100 = ((50 : ℤ) : ℚ) := by norm_num
    unfold format2f
    rw [h100, round_intCast]
    rfl
  have hfile : bird_filename ⟨2026, 1, 1, 0, 0, 1⟩ [⟨0, 0, 100, 100, (1 : ℚ)/2⟩]
      = "bird_20260101_000001_count_1_conf_0.50.jpg" := by
    unfold bird_filename
    rw [havg, hfmt, hn]
    rfl
  have hne0 : num_birds [⟨0, 0, 100, 100, (1 : ℚ)/2⟩] ≠ 0 := by
    rw [hn]
    exact one_ne_zero
  have hkey : (upload_to_s3 ⟨2026, 1, 1, 0, 0, 1⟩ [⟨0, 0, 100, 100, (1 : ℚ)/2⟩]
      (Except.ok ()) true).s3_key
        = some (strftime_date ⟨2026, 1, 1, 0, 0, 1⟩ ++ "/" ++
            bird_filename ⟨2026, 1, 1, 0, 0, 1⟩ [⟨0, 0, 100, 100, (1 : ℚ)/2⟩]) := by
    simp only [upload_to_s3]
    rw [if_neg hne0]
  refine ⟨?_, rfl, by decide⟩
  rw [hkey, hfile]
  rfl

/-- C7 amended: every persisted artifact is stored under the key
MM-DD-YYYY/bird_YYYYMMDD_HHMMSS_count_N_conf_avg.jpg with the count the
valid-detection count and the confidence rounded to two decimals, where
both the date folder and the timestamp come from the clock reading taken
at the start of the upload call (datetime.now() at line 214), not from a
capture timestamp. -/
theorem upload_key_format (now : PyTime) (result : List Det)
    (s3put : Except String Unit) (imwriteOk : Bool)
    (h : num_birds result ≠ 0) :
    (upload_to_s3 now result s3put imwriteOk).s3_key
      = some (strftime_date now ++ "/" ++
          ("bird_" ++ strftime_stamp now ++ "_count_" ++ toString (num_birds result)
            ++ "_conf_" ++ format2f (avg_conf result) ++ ".jpg")) := by
  simp [upload_to_s3, h, bird_filename]

/-- C7 amended witness: the key format theorem applied at a concrete
upload-time clock reading and a single surviving detection. -/
theorem upload_key_format_witness :
    (upload_to_s3 ⟨2026, 1, 1, 12, 0, 0⟩ [⟨0, 0, 100, 100, 1⟩]
        (Except.ok ()) true).s3_key
      = some (strftime_date ⟨2026, 1, 1, 12, 0, 0⟩ ++ "/" ++
          ("bird_" ++ strftime_stamp ⟨2026, 1, 1, 12, 0, 0⟩ ++ "_count_"
            ++ toString (num_birds [⟨0, 0, 100, 100, 1⟩]) ++ "_conf_"
            ++ format2f (avg_conf [⟨0, 0, 100, 100, 1⟩]) ++ ".jpg")) :=
  upload_key_format ⟨2026, 1, 1, 12, 0, 0⟩ [⟨0, 0, 100, 100, 1⟩]
    (Except.ok ()) true (by decide)

/-- C10: on a tick that reaches the emitter with a surviving detection,
the S3 put is attempted exactly once (no retry), its failure is caught so
no exception escapes the call and the tick survives, the local backup is
attempted whatever the upload outcome, and neither sink's outcome affects
the other: the upload result and returned key ignore the imwrite outcome,
and the backup attempt and path ignore the upload outcome. -/
theorem upload_error_handling (now : PyTime) (result : List Det)
    (s3put : Except String Unit) (imwriteOk : Bool)
    (h : num_birds result ≠ 0) :
    (upload_to_s3 now result s3put imwriteOk).uploadAttempts = 1
    ∧ (upload_to_s3 now result s3put imwriteOk).raised = false
    ∧ (upload_to_s3 now result s3put imwriteOk).backupAttempted = true
    ∧ (upload_to_s3 now result s3put imwriteOk).uploadSucceeded
        = (match s3put with | Except.ok _ => true | Except.error _ => false)
    ∧ (upload_to_s3 now result s3put true).uploadSucceeded
        = (upload_to_s3 now result s3put false).uploadSucceeded
    ∧ (upload_to_s3 now result s3put true).s3_key
        = (upload_to_s3 now result s3put false).s3_key
    ∧ (upload_to_s3 now result (Except.ok ()) imwriteOk).backupAttempted
        = (upload_to_s3 now result (Except.error "fail") imwriteOk).backupAttempted
    ∧ (upload_to_s3 now result (Except.ok ()) imwriteOk).local_path
        = (upload_to_s3 now result (Except.error "fail") imwriteOk).local_path := by
  refine ⟨?_, ?_, ?_, ?_, ?_, ?_, ?_, ?_⟩ <;>
    simp [upload_to_s3, h, SAVE_LOCAL_BACKUP]

/-- C10 witness: the error-handling theorem applied with a failing S3 put
and a failing local write on a concrete surviving detection. -/
theorem upload_error_handling_witness :
    (upload_to_s3 ⟨2026, 1, 1, 12, 0, 0⟩ [⟨0, 0, 100, 100, 1⟩]
        (Except.error "boom") false).uploadAttempts = 1
    ∧ (upload_to_s3 ⟨2026, 1, 1, 12, 0, 0⟩ [⟨0, 0, 100, 100, 1⟩]
        (Except.error "boom") false).raised = false
    ∧ (upload_to_s3 ⟨2026, 1, 1, 12, 0, 0⟩ [⟨0, 0, 100, 100, 1⟩]
        (Except.error "boom") false).backupAttempted = true
    ∧ (upload_to_s3 ⟨2026, 1, 1, 12, 0, 0⟩ [⟨0, 0, 100, 100, 1⟩]
        (Except.error "boom") false).uploadSucceeded = false
    ∧ (upload_to_s3 ⟨2026, 1, 1, 12, 0, 0⟩ [⟨0, 0, 100, 100, 1⟩]
        (Except.error "boom") true).uploadSucceeded
        = (upload_to_s3 ⟨2026, 1, 1, 12, 0, 0⟩ [⟨0, 0, 100, 100, 1⟩]
            (Except.error "boom") false).uploadSucceeded
    ∧ (upload_to_s3 ⟨2026, 1, 1, 12, 0, 0⟩ [⟨0, 0, 100, 100, 1⟩]
        (Except.error "boom") true).s3_key
        = (upload_to_s3 ⟨2026, 1, 1, 12, 0, 0⟩ [⟨0, 0, 100, 100, 1⟩]
            (Except.error "boom") false).s3_key
    ∧ (upload_to_s3 ⟨2026, 1, 1, 12, 0, 0⟩ [⟨0, 0, 100, 100, 1⟩]
        (Except.ok ()) false).backupAttempted
        = (upload_to_s3 ⟨2026, 1, 1, 12, 0, 0⟩ [⟨0, 0, 100, 100, 1⟩]
            (Except.error "fail") false).backupAttempted
    ∧ (upload_to_s3 ⟨2026, 1, 1, 12, 0, 0⟩ [⟨0, 0, 100, 100, 1⟩]
        (Except.ok ()) false).local_path
        = (upload_to_s3 ⟨2026, 1, 1, 12, 0, 0⟩ [⟨0, 0, 100, 100, 1⟩]
            (Except.error "fail") false).local_path :=
  upload_error_handling ⟨2026, 1, 1, 12, 0, 0⟩ [⟨0, 0, 100, 100, 1⟩]
    (Except.error "boom") false (by decide)

/-- C4: on every tick the current has_motion is appended to the history and
the oldest entry evicted when the length exceeds 3; persistent is true iff
the count of True entries in the possibly short history is at least
MOTION_PERSISTENCE; the classifier runs on a tick iff both persistent and
the tick's own has_motion hold; and with MOTION_PERSISTENCE = 2 the
history [True, True, False] is persistent while [True, False, False] is
not. -/
theorem persistence_filter_spec {Img : Type} (env : DetectorEnv Img) (frame : Img)
    (has_motion : Bool) (bboxes : List MotionRegion) (motion_history : List Bool)
    (uploadTime : PyTime) (s3put : Except String Unit) (imwriteOk : Bool) :
    (runTick env frame has_motion bboxes motion_history uploadTime s3put imwriteOk).motion_history
        = (if (motion_history ++ [has_motion]).length > 3
           then (motion_history ++ [has_motion]).drop 1
           else motion_history ++ [has_motion])
    ∧ (runTick env frame has_motion bboxes motion_history uploadTime s3put imwriteOk).invoked
        = (persistent_motion (pushHistory motion_history has_motion) && has_motion)
    ∧ persistent_motion (pushHistory motion_history has_motion)
        = decide (MOTION_PERSISTENCE ≤ (pushHistory motion_history has_motion).count true)
    ∧ persistent_motion [true, true, false] = true
    ∧ persistent_motion [true, false, false] = false := by
  refine ⟨?_, ?_, rfl, by decide, by decide⟩
  · have key : (runTick env frame has_motion bboxes motion_history uploadTime
        s3put imwriteOk).motion_history = pushHistory motion_history has_motion := by
      simp only [runTick]
      split
      · split <;> rfl
      · rfl
    rw [key]
    rfl
  · simp only [runTick]
    cases hgb : persistent_motion (pushHistory motion_history has_motion) && has_motion
    · simp [hgb]
    · simp only [hgb, if_true]
      split <;> rfl

/-- C6: a detection is retained iff its un-padded box area is at least
MIN_BOX_AREA (display padding plays no role in the test); a box of area
exactly 1500 is kept and one of area 1499 dropped; the count is the number
of retained detections; avg_conf is the arithmetic mean of the retained
confidences and is exactly 0 on an empty retained list. -/
theorem detection_validator_spec (result : List Det) :
    valid_boxes result = result.filter (fun box => decide (MIN_BOX_AREA ≤ boxArea box))
    ∧ num_birds result = (valid_boxes result).length
    ∧ avg_conf result =
        (if valid_boxes result = [] then 0
         else ((valid_boxes result).map (fun b => b.conf)).sum
                / ((valid_boxes result).length : ℚ))
    ∧ valid_boxes [⟨0, 0, 50, 30, 1/2⟩] = [⟨0, 0, 50, 30, 1/2⟩]
    ∧ valid_boxes [⟨0, 0, 1499, 1, 1/2⟩] = []
    ∧ avg_conf [] = 0 :=
  ⟨valid_boxes_eq_filter result, rfl, avg_conf_char result, rfl, rfl, rfl⟩

/-- C9: the validator filter is a fixed point on its own output. -/
theorem detection_validator_idempotent (result : List Det) :
    valid_boxes (valid_boxes result) = valid_boxes result := by
  refine List.filter_eq_self.mpr ?_
  intro b hb
  exact (List.mem_filter.mp hb).2

/-- C3: a tick produces a Sighting exactly when the persistence gate
(persistent history and the tick's own has_motion) passed and at least one
detection survives the validator's minimum-area filter, and the emitted
avg_confidence is the arithmetic mean over the surviving detections'
confidences only — discarded detections feed neither the mean nor the
count. -/
theorem sighting_emission_spec {Img : Type} (env : DetectorEnv Img) (frame : Img)
    (has_motion : Bool) (bboxes : List MotionRegion) (motion_history : List Bool)
    (uploadTime : PyTime) (s3put : Except String Unit) (imwriteOk : Bool) :
    (runTick env frame has_motion bboxes motion_history uploadTime s3put
        imwriteOk).sighting
      = (if (persistent_motion (pushHistory motion_history has_motion) && has_motion)
            && decide (0 < num_birds (detect_bird env frame bboxes))
         then some (num_birds (detect_bird env frame bboxes),
                    avg_conf (detect_bird env frame bboxes))
         else none)
    ∧ confidences (detect_bird env frame bboxes)
        = (valid_boxes (detect_bird env frame bboxes)).map (fun b => b.conf)
    ∧ avg_conf (detect_bird env frame bboxes)
        = (if valid_boxes (detect_bird env frame bboxes) = [] then 0
           else ((valid_boxes (detect_bird env frame bboxes)).map (fun b => b.conf)).sum
                  / ((valid_boxes (detect_bird env frame bboxes)).length : ℚ)) := by
  refine ⟨?_, rfl, avg_conf_char _⟩
  simp only [runTick]
  by_cases hg : (persistent_motion (pushHistory motion_history has_motion)
      && has_motion) = true
  · rw [if_pos hg, hg, Bool.true_and]
    by_cases hr : 0 < (detect_bird env frame bboxes).length
    · rw [if_pos hr]
      by_cases hn : num_birds (detect_bird env frame bboxes) = 0
      · simp [upload_to_s3, hn]
      · have hpos : 0 < num_birds (detect_bird env frame bboxes) :=
          Nat.pos_of_ne_zero hn
        simp [upload_to_s3, hn, hpos]
    · rw [if_neg hr]
      have hnil : detect_bird env frame bboxes = [] :=
        List.length_eq_zero.mp (Nat.eq_zero_of_not_pos hr)
      have hn : num_birds (detect_bird env frame bboxes) = 0 := by
        simp [num_birds, valid_boxes, hnil]
      simp [hn]
  · rw [if_neg hg]
    rw [Bool.not_eq_true] at hg
    rw [hg, Bool.false_and]
    simp

/-- C8: starting from the empty history, the push-then-truncate of each
tick keeps the length at most 3; a push onto a full history evicts
exactly the oldest entry, keeping the rest in FIFO order, and a push onto
a short history plainly appends. -/
theorem motion_history_invariant :
    (∀ ticks : List Bool, (List.foldl pushHistory [] ticks).length ≤ 3)
    ∧ (∀ (h : List Bool) (b : Bool), h.length ≤ 3 → (pushHistory h b).length ≤ 3)
    ∧ (∀ (h : List Bool) (b : Bool), h.length = 3 → pushHistory h b = h.drop 1 ++ [b])
    ∧ (∀ (h : List Bool) (b : Bool), h.length < 3 → pushHistory h b = h ++ [b]) := by
  refine ⟨fun ticks => foldl_pushHistory_le ticks [] (by simp),
          pushHistory_length_le, ?_, ?_⟩
  · intro h b hh
    have hl : (h ++ [b]).length > 3 := by simp [hh]
    simp only [pushHistory]
    rw [if_pos hl]
    cases h with
    | nil => simp at hh
    | cons x t => simp
  · intro h b hh
    have hl : ¬(h ++ [b]).length > 3 := by
      simp only [List.length_append, List.length_cons, List.length_nil]
      omega
    simp only [pushHistory]
    rw [if_neg hl]

/-- C8 witness: the invariant theorem applied at a full and at a short
concrete history. -/
theorem motion_history_invariant_witness :
    pushHistory [true, false, true] false = [true, false, true].drop 1 ++ [false]
    ∧ pushHistory [true, false] true = [true, false] ++ [true] :=
  ⟨motion_history_invariant.2.2.1 [true, false, true] false (by decide),
   motion_history_invariant.2.2.2 [true, false] true (by decide)⟩

end Birds
